import Mathlib

/-
Shallow embedding of the demo application in src/src/main.rs.

The application keeps one persistent record (`Player`), a repeating debug
timer, and three per-frame systems: `toggle_button_system`,
`update_player_camera`, and `debug_overlay`, plus the startup system
`setup_world` that spawns the physics bodies.  Coordinates are `f32` in the
source; the systems only copy, add and compare coordinates, so exact
rational arithmetic models them faithfully (every literal appearing in the
program is exactly representable in `f32`, and no rounding operation
occurs on any path modelled here).
-/

namespace Game

/-- Three-component vector, modelling glam `Vec3` (and nalgebra `Vector3`)
with exact rational coordinates. -/
structure Vec3 where
  x : ℚ
  y : ℚ
  z : ℚ
  deriving DecidableEq

/-- Componentwise addition, modelling `Vec3 + Vec3`. -/
def Vec3.add (a b : Vec3) : Vec3 :=
  ⟨a.x + b.x, a.y + b.y, a.z + b.z⟩

instance : Add Vec3 := ⟨Vec3.add⟩

/-- Model of the constant `Vec3::Y`. -/
def Vec3.unitY : Vec3 := ⟨0, 1, 0⟩

/-- Model of `Vector3::new`. -/
def Vector3.new (x y z : ℚ) : Vec3 := ⟨x, y, z⟩

/-- Quaternion components, modelling glam `Quat` as stored in
`Player.rotation` and in `GlobalTransform.rotation`. -/
structure Quat where
  x : ℚ
  y : ℚ
  z : ℚ
  w : ℚ
  deriving DecidableEq

/-- Rotation part of a nalgebra isometry.  The program only ever builds a
rotation from the zero axis-angle vector (which nalgebra maps to the
identity); a nonzero axis-angle vector is kept abstract. -/
inductive Rotation where
  | identity : Rotation
  | scaledAxis : Vec3 → Rotation
  deriving DecidableEq

/-- Model of nalgebra `Isometry3`: a translation together with a rotation. -/
structure Isometry where
  translation : Vec3
  rotation : Rotation
  deriving DecidableEq

/-- Model of `Isometry3::new(translation, axisangle)`: the rotation part is
the rotation of the given scaled axis, which is the identity exactly when
the axis-angle vector is zero. -/
def Isometry3.new (translation axisangle : Vec3) : Isometry :=
  { translation := translation
    rotation :=
      if axisangle = Vector3.new 0 0 0 then Rotation.identity
      else Rotation.scaledAxis axisangle }

/-- Body status of a rapier rigid body, as chosen by `RigidBodyBuilder`
constructors `new_static`, `new_dynamic`, `new_kinematic`. -/
inductive BodyStatus where
  | bodyStatic : BodyStatus
  | dynamic : BodyStatus
  | kinematic : BodyStatus
  deriving DecidableEq

/-- The slice of a rapier `RigidBody` that the application touches: its
status, its initial translation (set by `RigidBodyBuilder::translation`),
and the pending next-kinematic position (set by
`set_next_kinematic_position`, absent until first set). -/
structure RigidBody where
  status : BodyStatus
  translation : Vec3
  nextKinematicPos : Option Isometry
  deriving DecidableEq

/-- Model of `RigidBody::is_kinematic`. -/
def RigidBody.is_kinematic (b : RigidBody) : Bool :=
  decide (b.status = BodyStatus.kinematic)

/-- The application resource `Player` (src/src/main.rs lines 38-42). -/
structure Player where
  location : Vec3
  rotation : Quat
  deriving DecidableEq

/-- The slice of bevy `GlobalTransform` read by `update_player_camera`. -/
structure GlobalTransform where
  translation : Vec3
  rotation : Quat
  deriving DecidableEq

/-- Body of the `update_player_camera` loop for one fly-camera query row
(src/src/main.rs lines 210-229): compare the stored `Player` against the
camera transform; when the location differs, store the new location and set
the next kinematic position of every kinematic body to the camera position
(with a zero axis-angle rotation); when the rotation differs, store the new
rotation. -/
def update_player_camera_body (player : Player) (transform : GlobalTransform)
    (bodies : List RigidBody) : Player × List RigidBody :=
  let location_changed : Bool := decide (player.location ≠ transform.translation)
  let rotation_changed : Bool := decide (player.rotation ≠ transform.rotation)
  let afterLocation : Player × List RigidBody :=
    if location_changed then
      let player2 : Player := { player with location := transform.translation }
      (player2,
        bodies.map (fun body =>
          if body.is_kinematic then
            { body with
                nextKinematicPos :=
                  some (Isometry3.new
                    (Vector3.new player2.location.x player2.location.y player2.location.z)
                    (Vector3.new 0 0 0)) }
          else body))
    else (player, bodies)
  if rotation_changed then
    ({ afterLocation.1 with rotation := transform.rotation }, afterLocation.2)
  else afterLocation

/-- The `update_player_camera` system (src/src/main.rs lines 205-230),
folded over the query results (the scene spawns exactly one fly-camera). -/
def update_player_camera (player : Player) (cams : List GlobalTransform)
    (bodies : List RigidBody) : Player × List RigidBody :=
  match cams with
  | [] => (player, bodies)
  | t :: rest =>
    let r := update_player_camera_body player t bodies
    update_player_camera r.1 rest r.2

/-- The slice of a bevy `Window` that `toggle_button_system` touches:
cursor lock mode and cursor visibility. -/
structure Window where
  cursorLocked : Bool
  cursorVisible : Bool
  deriving DecidableEq

/-- The slice of the bevy_fly_camera `FlyCamera` component that the
application touches: the `enabled` flag. -/
structure FlyCamera where
  enabled : Bool
  deriving DecidableEq

/-- Body of the `toggle_button_system` loop for one fly-camera
(src/src/main.rs lines 182-201): on a just-pressed left click, set the
camera's `enabled` flag when it is off and lock and hide the cursor; on a
just-pressed Escape, clear the `enabled` flag when it is on and unlock and
show the cursor. -/
def toggle_camera (leftJustPressed escJustPressed : Bool)
    (w : Window) (cam : FlyCamera) : Window × FlyCamera :=
  let step1 : Window × FlyCamera :=
    if leftJustPressed then
      ({ w with cursorLocked := true, cursorVisible := false },
        if !cam.enabled then { cam with enabled := true } else cam)
    else (w, cam)
  if escJustPressed then
    ({ step1.1 with cursorLocked := false, cursorVisible := true },
      if step1.2.enabled then { step1.2 with enabled := false } else step1.2)
  else step1

/-- The `toggle_button_system` loop over all fly-camera query rows,
threading the primary window through the iterations. -/
def toggle_loop (leftJustPressed escJustPressed : Bool)
    (w : Window) : List FlyCamera → Window × List FlyCamera
  | [] => (w, [])
  | cam :: rest =>
    let r := toggle_camera leftJustPressed escJustPressed w cam
    let rr := toggle_loop leftJustPressed escJustPressed r.1 rest
    (rr.1, r.2 :: rr.2)

/-- The `toggle_button_system` system (src/src/main.rs lines 176-203).
`windows.get_primary_mut().unwrap()` runs inside the loop, so the system
panics (modelled as `none`) exactly when the primary window is absent and
at least one fly-camera entity exists. -/
def toggle_button_system (primary : Option Window)
    (leftJustPressed escJustPressed : Bool)
    (cams : List FlyCamera) : Option (Option Window × List FlyCamera) :=
  match cams with
  | [] => some (primary, [])
  | cam :: rest =>
    match primary with
    | none => none
    | some w =>
      let r := toggle_loop leftJustPressed escJustPressed w (cam :: rest)
      some (some r.1, r.2)

/-- The slice of a bevy `Timer` that `debug_overlay` uses; times are in
seconds. -/
structure Timer where
  elapsed : ℚ
  duration : ℚ
  repeating : Bool
  deriving DecidableEq

/-- Model of `Timer::from_seconds`. -/
def Timer.from_seconds (duration : ℚ) (repeating : Bool) : Timer :=
  { elapsed := 0, duration := duration, repeating := repeating }

/-- Model of `Timer::tick(delta)` paired with the subsequent
`just_finished()` reading: the elapsed time advances by `delta`; the tick
just finished when the elapsed time reaches the duration, and a repeating
timer then wraps its elapsed time back into the interval. -/
def Timer.tick (t : Timer) (delta : ℚ) : Timer × Bool :=
  let elapsed := t.elapsed + delta
  if t.duration ≤ elapsed then
    ({ t with
        elapsed :=
          if t.repeating then elapsed - t.duration * (Rat.floor (elapsed / t.duration) : ℚ)
          else t.duration },
      true)
  else
    ({ t with elapsed := elapsed }, false)

/-- The `DebugOverlayTimer` resource as inserted in `main`
(src/src/main.rs line 18): a repeating 0.2-second timer. -/
def debugOverlayTimerInit : Timer := Timer.from_seconds 0.2 true

/-- One section of a bevy `Text`; the application only writes `value`. -/
structure TextSection where
  value : String
  deriving DecidableEq

/-- The slice of a bevy `Text` component that `debug_overlay` touches. -/
structure Text where
  sections : List TextSection
  deriving DecidableEq

/-- Model of the `Display` implementation for `Player`
(src/src/main.rs lines 44-58), with rational components rendered by
`toString` in place of the Rust float formatter. -/
def Player.fmt (p : Player) : String :=
  "location = (" ++ toString p.location.x ++ ", " ++ toString p.location.y ++
    ", " ++ toString p.location.z ++ ")\nrotation = (" ++
    toString p.rotation.x ++ ", " ++ toString p.rotation.y ++ ", " ++
    toString p.rotation.z ++ ", " ++ toString p.rotation.w ++ ")"

/-- The `debug_overlay` system (src/src/main.rs lines 234-244): tick the
timer by the frame delta; when it just finished, take the single `Text`
entity (`query.single_mut().unwrap()`, modelled as `none` on zero or
several entities) and overwrite its first section (`text.sections[0]`,
modelled as `none` when there is no section) with the formatted `Player`.
Otherwise leave every text unchanged. -/
def debug_overlay (delta : ℚ) (timer : Timer) (player : Player)
    (texts : List Text) : Option (Timer × List Text) :=
  let r := timer.tick delta
  if r.2 then
    match texts with
    | [t] =>
      match t.sections with
      | [] => none
      | s :: rest =>
        some (r.1, [{ t with sections := { s with value := player.fmt } :: rest }])
    | _ => none
  else
    some (r.1, texts)

/-- The color handed to the material of a spawned entity. -/
inductive ColorSpec where
  | red : ColorSpec
  | green : ColorSpec
  | blue : ColorSpec
  | rgba : ℚ → ℚ → ℚ → ℚ → ColorSpec
  deriving DecidableEq

/-- The physics-relevant data of one entity spawned by `setup_world`: its
material color, its rigid body (status and builder translation), and the
half-extents of its cuboid collider. -/
structure SceneEntity where
  color : ColorSpec
  body : RigidBody
  collider : Vec3
  deriving DecidableEq

/-- The `setup_world` startup system (src/src/main.rs lines 109-174): one
static ground plane at `Vec3::Y` with cuboid collider (64, 0, 64); for `i`
in `1..10` a dynamic cube at `Vec3::Y + (0, 1.5 + i * 2, -10)`, green when
`i` is even and blue when odd, with cuboid collider (0.5, 0.5, 0.5); and
one kinematic invisible player hitbox at `Vec3::Y + (0, 5, 0)` with cuboid
collider (0.5, 1, 0.5). -/
def setup_world : List SceneEntity :=
  let plane_translation := Vec3.unitY
  let plane : SceneEntity :=
    { color := ColorSpec.red
      body :=
        { status := BodyStatus.bodyStatic
          translation := plane_translation
          nextKinematicPos := none }
      collider := ⟨64, 0, 64⟩ }
  let cubes : List SceneEntity :=
    (List.range' 1 9).map (fun (i : ℕ) =>
      let cube_translation := Vec3.unitY + Vector3.new 0 (1.5 + (i : ℚ) * 2) (-10)
      { color := if i % 2 = 0 then ColorSpec.green else ColorSpec.blue
        body :=
          { status := BodyStatus.dynamic
            translation := cube_translation
            nextKinematicPos := none }
        collider := ⟨0.5, 0.5, 0.5⟩ })
  let hitbox_translation := Vec3.unitY + Vector3.new 0 5 0
  let hitbox : SceneEntity :=
    { color := ColorSpec.rgba 1 0.9 0.9 0
      body :=
        { status := BodyStatus.kinematic
          translation := hitbox_translation
          nextKinematicPos := none }
      collider := ⟨0.5, 1, 0.5⟩ }
  plane :: cubes ++ [hitbox]

/-- Zero player: location at the origin, identity rotation (the `Default`
values of glam `Vec3` and `Quat`). -/
def playerZero : Player := ⟨⟨0, 0, 0⟩, ⟨0, 0, 0, 1⟩⟩

/-- Camera transform at the origin with the identity rotation. -/
def cameraStill : GlobalTransform := ⟨⟨0, 0, 0⟩, ⟨0, 0, 0, 1⟩⟩

/-- Camera transform at the origin whose rotation differs from the identity. -/
def cameraRotated : GlobalTransform := ⟨⟨0, 0, 0⟩, ⟨0, 1, 0, 0⟩⟩

/-- Camera transform moved away from the origin, identity rotation. -/
def cameraMoved : GlobalTransform := ⟨⟨1, 2, 3⟩, ⟨0, 0, 0, 1⟩⟩

/-- A kinematic body like the player hitbox spawned by `setup_world`. -/
def hitboxBody : RigidBody := ⟨BodyStatus.kinematic, ⟨0, 6, 0⟩, none⟩

/-- A dynamic body like the cubes spawned by `setup_world`. -/
def cubeBody : RigidBody := ⟨BodyStatus.dynamic, ⟨0, 4, -10⟩, none⟩

/-- A sample player value for concrete witnesses. -/
def samplePlayer : Player := ⟨⟨1, 2, 3⟩, ⟨0, 0, 0, 1⟩⟩

/-- The initial text section spawned by `setup_debug_overlay`. -/
def welcomeSection : TextSection := ⟨"welcome"⟩

/-- The initial debug text spawned by `setup_debug_overlay`. -/
def welcomeText : Text := ⟨[welcomeSection]⟩

theorem Vector3.new_eta (v : Vec3) : Vector3.new v.x v.y v.z = v := rfl

theorem Isometry3.new_zero_axis (v : Vec3) :
    Isometry3.new v (Vector3.new 0 0 0) = ⟨v, Rotation.identity⟩ := by
  simp [Isometry3.new]

theorem update_player_camera_single (p : Player) (t : GlobalTransform)
    (bodies : List RigidBody) :
    update_player_camera p [t] bodies = update_player_camera_body p t bodies := rfl

theorem update_player_camera_body_moved (p : Player) (t : GlobalTransform)
    (bodies : List RigidBody) (h : p.location ≠ t.translation) :
    update_player_camera_body p t bodies =
      ({ location := t.translation, rotation := t.rotation },
        bodies.map (fun body =>
          if body.is_kinematic then
            { body with nextKinematicPos := some ⟨t.translation, Rotation.identity⟩ }
          else body)) := by
  by_cases hr : p.rotation = t.rotation
  · simp [update_player_camera_body, h, hr, Isometry3.new_zero_axis, Vector3.new_eta]
  · simp [update_player_camera_body, h, hr, Isometry3.new_zero_axis, Vector3.new_eta]

theorem update_player_camera_body_quiescent (p : Player) (t : GlobalTransform)
    (bodies : List RigidBody) (hl : p.location = t.translation)
    (hr : p.rotation = t.rotation) :
    update_player_camera_body p t bodies = (p, bodies) := by
  simp [update_player_camera_body, hl, hr]

theorem update_player_camera_body_rot_only (p : Player) (t : GlobalTransform)
    (bodies : List RigidBody) (hl : p.location = t.translation)
    (hr : p.rotation ≠ t.rotation) :
    update_player_camera_body p t bodies = ({ p with rotation := t.rotation }, bodies) := by
  simp [update_player_camera_body, hl, hr]

theorem update_player_camera_body_player (p : Player) (t : GlobalTransform)
    (bodies : List RigidBody) :
    (update_player_camera_body p t bodies).1 = ⟨t.translation, t.rotation⟩ := by
  by_cases hl : p.location = t.translation
  · by_cases hr : p.rotation = t.rotation
    · rw [update_player_camera_body_quiescent p t bodies hl hr]
      cases p
      simp_all
    · rw [update_player_camera_body_rot_only p t bodies hl hr]
      cases p
      simp_all
  · rw [update_player_camera_body_moved p t bodies hl]

theorem toggle_camera_left (w : Window) (cam : FlyCamera) :
    toggle_camera true false w cam = (⟨true, false⟩, ⟨true⟩) := by
  cases cam with
  | mk e => cases e <;> simp [toggle_camera]

theorem toggle_camera_esc (w : Window) (cam : FlyCamera) :
    toggle_camera false true w cam = (⟨false, true⟩, ⟨false⟩) := by
  cases cam with
  | mk e => cases e <;> simp [toggle_camera]

theorem toggle_loop_left (w : Window) (cams : List FlyCamera) :
    toggle_loop true false w cams =
      ((if cams = [] then w else ⟨true, false⟩),
        cams.map (fun c => { c with enabled := true })) := by
  induction cams generalizing w with
  | nil => simp [toggle_loop]
  | cons c cs ih =>
    simp [toggle_loop, toggle_camera_left, ih]

theorem toggle_loop_esc (w : Window) (cams : List FlyCamera) :
    toggle_loop false true w cams =
      ((if cams = [] then w else ⟨false, true⟩),
        cams.map (fun c => { c with enabled := false })) := by
  induction cams generalizing w with
  | nil => simp [toggle_loop]
  | cons c cs ih =>
    simp [toggle_loop, toggle_camera_esc, ih]

theorem toggle_button_system_left (w : Window) (cam : FlyCamera)
    (cams : List FlyCamera) :
    toggle_button_system (some w) true false (cam :: cams) =
      some (some ⟨true, false⟩,
        (cam :: cams).map (fun c => { c with enabled := true })) := by
  simp [toggle_button_system, toggle_loop_left]

theorem toggle_button_system_esc (w : Window) (cam : FlyCamera)
    (cams : List FlyCamera) :
    toggle_button_system (some w) false true (cam :: cams) =
      some (some ⟨false, true⟩,
        (cam :: cams).map (fun c => { c with enabled := false })) := by
  simp [toggle_button_system, toggle_loop_esc]

/-- C1 counterexample: with the stored player at the origin with identity
rotation and a camera whose global transform differs from the stored value
in orientation only, `update_player_camera` over a kinematic body issues no
next-kinematic-position request: the body (whose pending request is `none`)
is returned unchanged, refuting that the request is issued whenever either
position or orientation differs. -/
theorem rotation_change_issues_no_request :
    playerZero.rotation ≠ cameraRotated.rotation ∧
    playerZero.location = cameraRotated.translation ∧
    hitboxBody.is_kinematic = true ∧
    hitboxBody.nextKinematicPos = none ∧
    update_player_camera playerZero [cameraRotated] [hitboxBody] =
      ({ playerZero with rotation := cameraRotated.rotation }, [hitboxBody]) := by
  decide

/-- C1 (amended): for every frame in which the fly-camera's global
transform differs from the last recorded Player value in position,
`update_player_camera` overwrites the stored Player value with the
camera's current transform and, for every rigid body in the set that is
kinematic, sets that body's next kinematic position to the camera's
current position; the kinematic-position request is issued only when the
position differs, not on an orientation-only difference. -/
theorem update_player_camera_moves_kinematic (p : Player) (t : GlobalTransform)
    (bodies : List RigidBody) (h : p.location ≠ t.translation) :
    update_player_camera p [t] bodies =
      ({ location := t.translation, rotation := t.rotation },
        bodies.map (fun body =>
          if body.is_kinematic then
            { body with nextKinematicPos := some ⟨t.translation, Rotation.identity⟩ }
          else body)) := by
  rw [update_player_camera_single]
  exact update_player_camera_body_moved p t bodies h

/-- C1 witness: concrete run of the amended statement, with the camera
moved to (1, 2, 3): the kinematic hitbox receives the request and the
dynamic cube does not. -/
theorem update_player_camera_moves_kinematic_witness :
    playerZero.location ≠ cameraMoved.translation ∧
    update_player_camera playerZero [cameraMoved] [hitboxBody, cubeBody] =
      ({ location := cameraMoved.translation, rotation := cameraMoved.rotation },
        [hitboxBody, cubeBody].map (fun body =>
          if body.is_kinematic then
            { body with
                nextKinematicPos := some ⟨cameraMoved.translation, Rotation.identity⟩ }
          else body)) :=
  ⟨by decide,
    update_player_camera_moves_kinematic playerZero cameraMoved [hitboxBody, cubeBody]
      (by decide)⟩

/-- C2: relating the input and output body lists of `update_player_camera`
pointwise, each body either keeps its previous pending request or receives
exactly the isometry whose translation is the camera's current position
and whose rotation is the identity (never the camera's orientation); the
camera orientation is stored in `Player.rotation` only. -/
theorem next_kinematic_request_is_exact (p : Player) (t : GlobalTransform)
    (bodies : List RigidBody) :
    (update_player_camera p [t] bodies).1.rotation = t.rotation ∧
    List.Forall₂ (fun bIn bOut =>
        bOut.nextKinematicPos = bIn.nextKinematicPos ∨
        bOut.nextKinematicPos = some ⟨t.translation, Rotation.identity⟩)
      bodies (update_player_camera p [t] bodies).2 := by
  rw [update_player_camera_single]
  refine ⟨by rw [update_player_camera_body_player], ?_⟩
  by_cases hl : p.location = t.translation
  · by_cases hr : p.rotation = t.rotation
    · rw [update_player_camera_body_quiescent p t bodies hl hr]
      exact List.forall₂_same.mpr (fun b _ => Or.inl rfl)
    · rw [update_player_camera_body_rot_only p t bodies hl hr]
      exact List.forall₂_same.mpr (fun b _ => Or.inl rfl)
  · rw [update_player_camera_body_moved p t bodies hl]
    rw [List.forall₂_map_right_iff]
    refine List.forall₂_same.mpr (fun b _ => ?_)
    by_cases hk : b.is_kinematic
    · simp [hk]
    · simp [hk]

/-- C3: after each run of `update_player_camera` over a fly-camera entity,
the Player record equals the camera's observed global transform —
`Player.location` equals the camera's translation and `Player.rotation`
equals the camera's rotation — regardless of the prior Player value. -/
theorem player_reflects_camera (p : Player) (t : GlobalTransform)
    (bodies : List RigidBody) :
    (update_player_camera p [t] bodies).1.location = t.translation ∧
    (update_player_camera p [t] bodies).1.rotation = t.rotation := by
  rw [update_player_camera_single, update_player_camera_body_player]
  exact ⟨rfl, rfl⟩

/-- C4: the debug overlay timer is the fixed repeating 0.2-second timer;
on a frame whose tick does not finish the timer, `debug_overlay` leaves
the text unchanged, and on a frame whose tick finishes it, it overwrites
the first section of the single text label with the formatted dump of the
tracked Player position and orientation. -/
theorem debug_overlay_rewrites_on_tick (delta : ℚ) (timer : Timer) (p : Player)
    (t : Text) (s : TextSection) (rest : List TextSection)
    (hs : t.sections = s :: rest) :
    (debugOverlayTimerInit.duration = 0.2 ∧ debugOverlayTimerInit.repeating = true) ∧
    ((timer.tick delta).2 = false →
      debug_overlay delta timer p [t] = some ((timer.tick delta).1, [t])) ∧
    ((timer.tick delta).2 = true →
      debug_overlay delta timer p [t] =
        some ((timer.tick delta).1,
          [{ t with sections := { s with value := p.fmt } :: rest }])) := by
  refine ⟨⟨rfl, rfl⟩, ?_, ?_⟩
  · intro h
    simp [debug_overlay, h]
  · intro h
    simp [debug_overlay, h, hs]

/-- C4 witness: the initial 0.2-second timer ticked by 0.1 seconds leaves
the welcome text unchanged; ticked by 0.3 seconds it rewrites the first
section with the formatted player dump. -/
theorem debug_overlay_rewrites_on_tick_witness :
    debug_overlay 0.1 debugOverlayTimerInit samplePlayer [welcomeText] =
      some ((debugOverlayTimerInit.tick 0.1).1, [welcomeText]) ∧
    debug_overlay 0.3 debugOverlayTimerInit samplePlayer [welcomeText] =
      some ((debugOverlayTimerInit.tick 0.3).1,
        [{ welcomeText with
            sections := { welcomeSection with value := samplePlayer.fmt } :: [] }]) :=
  ⟨(debug_overlay_rewrites_on_tick 0.1 debugOverlayTimerInit samplePlayer welcomeText
      welcomeSection [] rfl).2.1 (by with_unfolding_all decide),
    (debug_overlay_rewrites_on_tick 0.3 debugOverlayTimerInit samplePlayer welcomeText
      welcomeSection [] rfl).2.2 (by with_unfolding_all decide)⟩

/-- C5 counterexample: with mouse-look already enabled, a just-pressed
left click leaves the enabled flag `true`: the camera state is not
flipped (a flip would disable it), refuting that left click toggles the
mouse-look enabled state. -/
theorem left_click_does_not_flip :
    toggle_button_system (some ⟨false, true⟩) true false [⟨true⟩] =
      some (some ⟨true, false⟩, [⟨true⟩]) ∧
    (⟨true⟩ : FlyCamera) ≠ ⟨!true⟩ := by
  decide

/-- C5 (amended): left mouse-button press enables mouse-look: for every
fly-camera entity, a just-pressed left click sets the camera's mouse-look
enabled state to true (leaving it enabled when it already is) and locks
and hides the cursor, while a just-pressed Escape disables mouse-look and
releases the cursor lock and restores cursor visibility. -/
theorem left_click_enables_escape_disables (w : Window) (cam : FlyCamera)
    (cams : List FlyCamera) :
    toggle_button_system (some w) true false (cam :: cams) =
      some (some ⟨true, false⟩,
        (cam :: cams).map (fun c => { c with enabled := true })) ∧
    toggle_button_system (some w) false true (cam :: cams) =
      some (some ⟨false, true⟩,
        (cam :: cams).map (fun c => { c with enabled := false })) :=
  ⟨toggle_button_system_left w cam cams, toggle_button_system_esc w cam cams⟩

/-- C6: change detection means no-op on a quiescent frame: when the
camera's global transform equals the recorded Player value in both
position and orientation, `update_player_camera` returns the Player record
and every rigid body unchanged. -/
theorem quiescent_frame_is_noop (p : Player) (t : GlobalTransform)
    (bodies : List RigidBody) (hl : p.location = t.translation)
    (hr : p.rotation = t.rotation) :
    update_player_camera p [t] bodies = (p, bodies) := by
  rw [update_player_camera_single]
  exact update_player_camera_body_quiescent p t bodies hl hr

/-- C6 witness: concrete quiescent frame at the origin with the identity
rotation over the kinematic hitbox and a dynamic cube. -/
theorem quiescent_frame_is_noop_witness :
    update_player_camera playerZero [cameraStill] [hitboxBody, cubeBody] =
      (playerZero, [hitboxBody, cubeBody]) :=
  quiescent_frame_is_noop playerZero cameraStill [hitboxBody, cubeBody]
    (by decide) (by decide)

/-- C7: on misuse the per-frame callbacks propagate the failure (modelled
as `none` for the `unwrap` panic) rather than recovering: with the primary
window absent and at least one fly-camera entity, `toggle_button_system`
panics; and when the debug-overlay timer fires with the number of text
entities different from one, `debug_overlay` panics. -/
theorem misuse_panics (leftJustPressed escJustPressed : Bool) (cam : FlyCamera)
    (cams : List FlyCamera) (delta : ℚ) (timer : Timer) (p : Player)
    (texts : List Text) (hfin : (timer.tick delta).2 = true)
    (hlen : texts.length ≠ 1) :
    toggle_button_system none leftJustPressed escJustPressed (cam :: cams) = none ∧
    debug_overlay delta timer p texts = none := by
  refine ⟨rfl, ?_⟩
  cases texts with
  | nil => simp [debug_overlay, hfin]
  | cons t rest =>
    cases rest with
    | nil => exact absurd rfl hlen
    | cons t2 rest2 => simp [debug_overlay, hfin]

/-- C7 witness: the toggle system with no primary window and one
fly-camera, and the overlay with a firing timer and an empty text query,
both panic. -/
theorem misuse_panics_witness :
    toggle_button_system none true false [⟨false⟩] = none ∧
    debug_overlay 0.3 debugOverlayTimerInit samplePlayer [] = none :=
  misuse_panics true false ⟨false⟩ [] 0.3 debugOverlayTimerInit samplePlayer []
    (by with_unfolding_all decide) (by decide)

/-- C8: on a rotation-only change (camera translation equal to the
recorded `Player.location`, camera rotation different from
`Player.rotation`), `update_player_camera` updates only `Player.rotation`:
the location is unchanged and every rigid body is returned unchanged, so
no next-kinematic-position request is issued. -/
theorem rotation_only_change_updates_rotation (p : Player) (t : GlobalTransform)
    (bodies : List RigidBody) (hl : p.location = t.translation)
    (hr : p.rotation ≠ t.rotation) :
    update_player_camera p [t] bodies = ({ p with rotation := t.rotation }, bodies) := by
  rw [update_player_camera_single]
  exact update_player_camera_body_rot_only p t bodies hl hr

/-- C8 witness: concrete rotation-only frame over the kinematic hitbox and
a dynamic cube: only the stored rotation changes and both bodies are
untouched. -/
theorem rotation_only_change_updates_rotation_witness :
    update_player_camera playerZero [cameraRotated] [hitboxBody, cubeBody] =
      ({ playerZero with rotation := cameraRotated.rotation },
        [hitboxBody, cubeBody]) :=
  rotation_only_change_updates_rotation playerZero cameraRotated
    [hitboxBody, cubeBody] (by decide) (by decide)

/-- C9: `setup_world` creates exactly eleven physics bodies: the static
ground body at translation (0, 1, 0) with cuboid collider half-extents
(64, 0, 64); nine dynamic cubes (indices 1 through 9) at x = 0, z = -10,
y = 1 + 1.5 + 2i, green for even i and blue for odd i, each with cuboid
collider half-extents (0.5, 0.5, 0.5); and exactly one kinematic body, the
invisible player hitbox with cuboid collider half-extents (0.5, 1, 0.5),
so the camera sync's iteration over kinematic bodies targets only the
hitbox. -/
theorem setup_world_contents :
    setup_world.length = 11 ∧
    setup_world.get? 0 = some
      { color := ColorSpec.red
        body :=
          { status := BodyStatus.bodyStatic
            translation := ⟨0, 1, 0⟩
            nextKinematicPos := none }
        collider := ⟨64, 0, 64⟩ } ∧
    (∀ i : Fin 9,
      setup_world.get? (i.1 + 1) = some
        { color := if (i.1 + 1) % 2 = 0 then ColorSpec.green else ColorSpec.blue
          body :=
            { status := BodyStatus.dynamic
              translation := ⟨0, 1 + 1.5 + 2 * ((i.1 + 1 : ℕ) : ℚ), -10⟩
              nextKinematicPos := none }
          collider := ⟨0.5, 0.5, 0.5⟩ }) ∧
    setup_world.get? 10 = some
      { color := ColorSpec.rgba 1 0.9 0.9 0
        body :=
          { status := BodyStatus.kinematic
            translation := ⟨0, 6, 0⟩
            nextKinematicPos := none }
        collider := ⟨0.5, 1, 0.5⟩ } ∧
    setup_world.filter (fun e => e.body.is_kinematic) =
      [{ color := ColorSpec.rgba 1 0.9 0.9 0
         body :=
           { status := BodyStatus.kinematic
             translation := ⟨0, 6, 0⟩
             nextKinematicPos := none }
         collider := ⟨0.5, 1, 0.5⟩ }] := by
  with_unfolding_all decide

/-- C10: the input-toggle handler is idempotent per key: from any prior
window and camera state, after a just-pressed left click every fly-camera
is enabled and the cursor is locked and invisible, after a just-pressed
Escape every fly-camera is disabled and the cursor is unlocked and
visible, and repeating the same press from the resulting state changes
nothing. -/
theorem toggle_press_idempotent (w : Window) (cam : FlyCamera)
    (cams : List FlyCamera) :
    (toggle_button_system (some w) true false (cam :: cams) =
        some (some ⟨true, false⟩,
          (cam :: cams).map (fun c => { c with enabled := true })) ∧
      (∀ c ∈ (cam :: cams).map (fun c => { c with enabled := true }),
        c.enabled = true) ∧
      toggle_button_system (some ⟨true, false⟩) true false
          ((cam :: cams).map (fun c => { c with enabled := true })) =
        some (some ⟨true, false⟩,
          (cam :: cams).map (fun c => { c with enabled := true }))) ∧
    (toggle_button_system (some w) false true (cam :: cams) =
        some (some ⟨false, true⟩,
          (cam :: cams).map (fun c => { c with enabled := false })) ∧
      (∀ c ∈ (cam :: cams).map (fun c => { c with enabled := false }),
        c.enabled = false) ∧
      toggle_button_system (some ⟨false, true⟩) false true
          ((cam :: cams).map (fun c => { c with enabled := false })) =
        some (some ⟨false, true⟩,
          (cam :: cams).map (fun c => { c with enabled := false }))) := by
  refine ⟨⟨toggle_button_system_left w cam cams, ?_, ?_⟩,
    ⟨toggle_button_system_esc w cam cams, ?_, ?_⟩⟩
  · intro c hc
    obtain ⟨a, -, ha⟩ := List.mem_map.mp hc
    exact ha ▸ rfl
  · rw [List.map_cons]
    rw [toggle_button_system_left ⟨true, false⟩ { cam with enabled := true }
      (cams.map (fun c => { c with enabled := true }))]
    simp [List.map_map]
  · intro c hc
    obtain ⟨a, -, ha⟩ := List.mem_map.mp hc
    exact ha ▸ rfl
  · rw [List.map_cons]
    rw [toggle_button_system_esc ⟨false, true⟩ { cam with enabled := false }
      (cams.map (fun c => { c with enabled := false }))]
    simp [List.map_map]

/-- C10 witness: a concrete left press from an unlocked window with a
disabled camera, repeated from the resulting state. -/
theorem toggle_press_idempotent_witness :
    toggle_button_system (some ⟨true, false⟩) true false
        (([⟨false⟩] : List FlyCamera).map (fun c => { c with enabled := true })) =
      some (some ⟨true, false⟩,
        (([⟨false⟩] : List FlyCamera)).map (fun c => { c with enabled := true })) :=
  (toggle_press_idempotent ⟨false, true⟩ ⟨false⟩ []).1.2.2

end Game
